import Mathlib

/-!
Shallow embedding of the Credential and Session Guard of the
comprehensive-hms repository: the account-lockout tracker, the
`POST /login` handler, the per-IP auth rate limiter, the JWT
issue/validate/revoke cycle and the per-request authentication
middleware, translated from `server/middleware/authMiddleware.js`
and `server/routes/authRoutes.js`.

Timestamps are milliseconds since the epoch, as produced by
`Date.now()`; JWT expiries are in seconds, as in the `exp` claim.
-/

namespace HMS

/-- One row of the `users` table, restricted to the columns the
authentication flows read and write. -/
structure User where
  id : String
  email : String
  password_hash : String
  role : String
  is_active : Bool
  two_factor_enabled : Bool
  two_factor_secret : Option String
  failed_login_attempts : Nat
  locked_until : Option Nat
  last_login : Option Nat
deriving DecidableEq

/-- The external cryptographic primitives (`bcrypt.compare` inside
`verifyPassword`, `speakeasy.totp.verify` inside
`verifyTwoFactorToken`). They live in third-party libraries, so the
embedding keeps them as boolean oracles; theorems quantify over them
and constrain only the outcomes a claim fixes. -/
structure Crypto where
  verifyPassword : String → String → Bool
  verifyTwoFactorToken : String → Option String → Bool

/-- `handleFailedLogin` from authMiddleware.js: increment the
failed-login counter, and once it reaches `maxAttempts = 5` also set
`locked_until` to now plus the 30 minute `lockoutDuration`. -/
def handleFailedLogin (now : Nat) (u : User) : User :=
  let failedAttempts := u.failed_login_attempts + 1
  let maxAttempts := 5
  let lockoutDuration := 30 * 60 * 1000
  if maxAttempts ≤ failedAttempts then
    { u with failed_login_attempts := failedAttempts
             locked_until := some (now + lockoutDuration) }
  else
    { u with failed_login_attempts := failedAttempts }

/-- `resetFailedAttempts` from authMiddleware.js: on a successful
login, zero the counter, clear the lock and record `last_login`. -/
def resetFailedAttempts (now : Nat) (u : User) : User :=
  { u with failed_login_attempts := 0
           locked_until := none
           last_login := some now }

/-- The lockout test `user.locked_until && new Date() < user.locked_until`
used by both the login handler and `authenticateToken`. -/
def isLocked (now : Nat) (u : User) : Bool :=
  match u.locked_until with
  | some t => decide (now < t)
  | none => false

/-- `Math.ceil((user.locked_until - new Date()) / 60000)` from the 423
branch of the login handler. -/
def lockMinutesRemaining (now t : Nat) : Nat :=
  (t - now + 59999) / 60000

/-- The parsed body of `POST /login`. -/
structure LoginRequest where
  email : String
  password : String
  twoFactorToken : Option String
deriving DecidableEq

/-- The JWT minted by `generateToken`: payload `{userId, role}`, an
absolute expiry in seconds, and a signature; `sig` stands for the HMAC
of the payload under the server secret. -/
structure Token where
  userId : String
  role : String
  exp : Nat
  sig : String
deriving DecidableEq

/-- The signature a correctly signed token carries. -/
def mkSig (secret userId role : String) (exp : Nat) : String :=
  "hmac(" ++ secret ++ "," ++ userId ++ "," ++ role ++ "," ++ toString exp ++ ")"

/-- `generateToken` from authMiddleware.js:
`jwt.sign({userId, role}, secret, {expiresIn: 24h})`. -/
def generateToken (secret : String) (nowMs : Nat) (userId role : String) : Token :=
  { userId := userId
    role := role
    exp := nowMs / 1000 + 24 * 60 * 60
    sig := mkSig secret userId role (nowMs / 1000 + 24 * 60 * 60) }

/-- `user.toJSON()`: every column of the row as a JSON key/value pair. -/
def userToJSON (u : User) : List (String × String) :=
  [("id", u.id),
   ("email", u.email),
   ("password_hash", u.password_hash),
   ("role", u.role),
   ("is_active", toString u.is_active),
   ("two_factor_enabled", toString u.two_factor_enabled),
   ("two_factor_secret", u.two_factor_secret.getD "null"),
   ("failed_login_attempts", toString u.failed_login_attempts),
   ("locked_until", toString (u.locked_until.getD 0)),
   ("last_login", toString (u.last_login.getD 0))]

/-- The `user` object of the login response: `user.toJSON()` followed by
`delete userData.password_hash; delete userData.two_factor_secret`. -/
def loginUserData (u : User) : List (String × String) :=
  (userToJSON u).filter fun kv =>
    (kv.1 != "password_hash") && (kv.1 != "two_factor_secret")

/-- The `GET /me` payload: the row serialized with
`attributes: exclude password_hash and two_factor_secret`. -/
def meUserData (u : User) : List (String × String) :=
  (userToJSON u).filter fun kv =>
    (kv.1 != "password_hash") && (kv.1 != "two_factor_secret")

/-- Outcome of `POST /login`, one constructor per response site of the
handler (plus the rate-limit middleware rejection). -/
inductive LoginResult where
  | rateLimited
  | invalidCredentials
  | locked (minutesRemaining : Nat)
  | twoFactorRequired
  | invalidTwoFactor
  | success (token : Token) (userData : List (String × String))
deriving DecidableEq

/-- The HTTP status each login outcome is sent with. -/
def loginStatus : LoginResult → Nat
  | LoginResult.rateLimited => 429
  | LoginResult.invalidCredentials => 401
  | LoginResult.locked _ => 423
  | LoginResult.twoFactorRequired => 200
  | LoginResult.invalidTwoFactor => 401
  | LoginResult.success _ _ => 200

/-- The `if (user.two_factor_enabled)` block of the login handler:
`none` means fall through to token issuance, `some r` means the
request is answered by `r` at that point. Note that the invalid-code
branch answers directly without calling `handleFailedLogin`. -/
def loginTwoFactorGate (c : Crypto) (req : LoginRequest) (u : User) :
    Option LoginResult :=
  if u.two_factor_enabled then
    match req.twoFactorToken with
    | none => some LoginResult.twoFactorRequired
    | some code =>
      if c.verifyTwoFactorToken code u.two_factor_secret then none
      else some LoginResult.invalidTwoFactor
  else none

/-- The `POST /login` handler body once `User.findOne` has produced the
row (authRoutes.js): lockout check, password check with
`handleFailedLogin` on failure, two-factor gate, then token issuance
and `resetFailedAttempts`. Returns the HTTP outcome together with the
row as left in the database. The success response serializes the row
as it was read, since `resetFailedAttempts` updates only the table. -/
def loginUser (c : Crypto) (secret : String) (now : Nat) (req : LoginRequest)
    (u : User) : LoginResult × User :=
  if isLocked now u then
    (LoginResult.locked (lockMinutesRemaining now (u.locked_until.getD 0)), u)
  else if c.verifyPassword req.password u.password_hash = false then
    (LoginResult.invalidCredentials, handleFailedLogin now u)
  else
    match loginTwoFactorGate c req u with
    | some r => (r, u)
    | none =>
      (LoginResult.success (generateToken secret now u.id u.role)
        (loginUserData u), resetFailedAttempts now u)

/-- `User.findOne({ where: { email, is_active: true } })`. -/
def findUserByEmail (db : List User) (email : String) : Option User :=
  db.find? fun u => (u.email == email) && u.is_active

/-- The `POST /login` handler after the middleware chain: user lookup,
generic 401 when the email is unknown or inactive, else `loginUser`. -/
def loginHandler (c : Crypto) (secret : String) (now : Nat) (db : List User)
    (req : LoginRequest) : LoginResult × Option User :=
  match findUserByEmail db req.email with
  | none => (LoginResult.invalidCredentials, none)
  | some u =>
    let r := loginUser c secret now req u
    (r.1, some r.2)

/-- `authRateLimit` from authMiddleware.js. The argument is the result
of `redisClient.get` on the per-IP counter key: `Except.error` models
the store throwing. At a count of `maxAttempts = 10` or more the
request is answered 429 (`false`); otherwise the counter is
incremented and the request passes; when the store throws, the catch
block lets the request proceed (fail open). Returns the pass/reject
decision and the counter afterwards. -/
def authRateLimit (store : Except Unit (Option Nat)) : Bool × Option Nat :=
  match store with
  | Except.error _ => (true, none)
  | Except.ok current =>
    let maxAttempts := 10
    match current with
    | some c => if maxAttempts ≤ c then (false, some c) else (true, some (c + 1))
    | none => (true, some 1)

/-- `router.post('/login', authRateLimit, ..., handler)`: the
rate-limit middleware runs first, and only when it passes is any
`users` row read. Returns outcome, counter afterwards, and the updated
row if one was written. -/
def loginRequestPipeline (c : Crypto) (secret : String) (now : Nat)
    (store : Except Unit (Option Nat)) (db : List User) (req : LoginRequest) :
    LoginResult × Option Nat × Option User :=
  let gate := authRateLimit store
  if gate.1 then
    let r := loginHandler c secret now db req
    (r.1, gate.2, r.2)
  else
    (LoginResult.rateLimited, gate.2, none)

/-- The per-IP counter after `n` login requests inside one 15 minute
window (the key does not expire between them), starting from an absent
key. -/
def counterAfterRequests : Nat → Option Nat
  | 0 => none
  | n + 1 => (authRateLimit (Except.ok (counterAfterRequests n))).2

/-- A bearer token as extracted from the Authorization header: either a
structurally valid JWT or an arbitrary malformed string. -/
inductive RawToken where
  | wellFormed (t : Token)
  | malformed (s : String)
deriving DecidableEq

/-- The three outcomes of `jwt.verify`. -/
inductive VerifyOutcome where
  | payload (userId role : String)
  | expiredError
  | invalidError
deriving DecidableEq

/-- `jwt.verify(token, secret)` evaluated at `nowMs`: a
JsonWebTokenError on a malformed token or a bad signature, a
TokenExpiredError once `floor(nowMs / 1000) ≥ exp`, else the decoded
payload. -/
def jwtVerify (secret : String) (nowMs : Nat) (rt : RawToken) : VerifyOutcome :=
  match rt with
  | RawToken.malformed _ => VerifyOutcome.invalidError
  | RawToken.wellFormed t =>
    if t.sig = mkSig secret t.userId t.role t.exp then
      if t.exp ≤ nowMs / 1000 then VerifyOutcome.expiredError
      else VerifyOutcome.payload t.userId t.role
    else VerifyOutcome.invalidError

/-- One `blacklist:<token>` key written by `redisClient.setex`: set at
`setAtMs` with a time-to-live of `ttlSec` seconds. -/
structure BlacklistEntry where
  token : RawToken
  setAtMs : Nat
  ttlSec : Nat
deriving DecidableEq

/-- A setex key is readable strictly before its expiry instant. -/
def BlacklistEntry.live (nowMs : Nat) (e : BlacklistEntry) : Bool :=
  decide (nowMs < e.setAtMs + e.ttlSec * 1000)

/-- `redisClient.get` on `blacklist:<token>` returns a value. -/
def isBlacklisted (nowMs : Nat) (bl : List BlacklistEntry) (rt : RawToken) : Bool :=
  bl.any fun e => decide (e.token = rt) && e.live nowMs

/-- `User.findByPk(id)`. -/
def findUserById (db : List User) (id : String) : Option User :=
  db.find? fun u => u.id == id

/-- Outcome of the `authenticateToken` middleware, one constructor per
response site. -/
inductive AuthResult where
  | noToken
  | revokedToken
  | expiredToken
  | invalidToken
  | userNotFound
  | lockedAccount
  | ok (u : User) (rt : RawToken)
deriving DecidableEq

/-- The HTTP status each middleware outcome is sent with. -/
def authStatus : AuthResult → Nat
  | AuthResult.noToken => 401
  | AuthResult.revokedToken => 401
  | AuthResult.expiredToken => 401
  | AuthResult.invalidToken => 401
  | AuthResult.userNotFound => 401
  | AuthResult.lockedAccount => 423
  | AuthResult.ok _ _ => 200

/-- The `message` field each middleware outcome is sent with. -/
def authMessage : AuthResult → String
  | AuthResult.noToken => "Access token required"
  | AuthResult.revokedToken => "Token has been invalidated"
  | AuthResult.expiredToken => "Token has expired"
  | AuthResult.invalidToken => "Invalid token"
  | AuthResult.userNotFound => "User not found or inactive"
  | AuthResult.lockedAccount => "Account is temporarily locked"
  | AuthResult.ok _ _ => ""

/-- The outcomes in which the bearer token itself was rejected:
missing, revoked, expired, or cryptographically invalid / malformed. -/
def isTokenRejection : AuthResult → Bool
  | AuthResult.noToken => true
  | AuthResult.revokedToken => true
  | AuthResult.expiredToken => true
  | AuthResult.invalidToken => true
  | _ => false

/-- `authenticateToken` from authMiddleware.js: missing-token check,
denylist lookup, `jwt.verify`, user lookup with active check, and the
per-request lockout re-check, in that order. -/
def authenticateToken (secret : String) (nowMs : Nat) (bl : List BlacklistEntry)
    (db : List User) (header : Option RawToken) : AuthResult :=
  match header with
  | none => AuthResult.noToken
  | some rt =>
    if isBlacklisted nowMs bl rt then AuthResult.revokedToken
    else
      match jwtVerify secret nowMs rt with
      | VerifyOutcome.invalidError => AuthResult.invalidToken
      | VerifyOutcome.expiredError => AuthResult.expiredToken
      | VerifyOutcome.payload uid _ =>
        match findUserById db uid with
        | none => AuthResult.userNotFound
        | some u =>
          if u.is_active = false then AuthResult.userNotFound
          else if isLocked nowMs u then AuthResult.lockedAccount
          else AuthResult.ok u rt

/-- `logout` from authMiddleware.js: `jwt.decode` the bearer token and,
when `decoded.exp - floor(now / 1000)` is positive, denylist it for
exactly that many seconds. Returns the updated denylist. -/
def logout (nowMs : Nat) (rt : RawToken) (bl : List BlacklistEntry) :
    List BlacklistEntry :=
  match rt with
  | RawToken.malformed _ => bl
  | RawToken.wellFormed t =>
    if nowMs / 1000 < t.exp then
      { token := rt, setAtMs := nowMs, ttlSec := t.exp - nowMs / 1000 } :: bl
    else bl

/-- The row update performed by `POST /enable-2fa` when two-factor is
not yet enabled: store the generated secret, leaving the
`two_factor_enabled` flag untouched. -/
def enableTwoFA (secret : String) (u : User) : User :=
  { u with two_factor_secret := some secret }

/-- The `POST /verify-2fa-setup` handler effect: a 400 when no secret
is stored, a 401 on a bad code, and otherwise set the enabled flag. -/
def verifyTwoFASetup (c : Crypto) (code : String) (u : User) : Bool × User :=
  match u.two_factor_secret with
  | none => (false, u)
  | some s =>
    if c.verifyTwoFactorToken code (some s) then
      (true, { u with two_factor_enabled := true })
    else (false, u)

/-- The user row after a list of login attempts, applied left to
right; each element carries the time of the attempt and its request. -/
def runAttempts (c : Crypto) (secret : String) (u : User) :
    List (Nat × LoginRequest) → User
  | [] => u
  | a :: rest => runAttempts c secret (loginUser c secret a.1 a.2 u).2 rest

/-- A concrete stand-in for bcrypt and speakeasy, used only to evaluate
the flows on closed inputs: a digest matches exactly the password it
records, and a code matches exactly the stored secret. -/
def demoCrypto : Crypto where
  verifyPassword := fun pw digest => digest == "digest:" ++ pw
  verifyTwoFactorToken := fun code secret => secret == some ("secret-of:" ++ code)

/-- A fresh active account with no failures and no lock. -/
def demoUser : User :=
  { id := "u1"
    email := "doc@h.com"
    password_hash := "digest:pw-right"
    role := "doctor"
    is_active := true
    two_factor_enabled := false
    two_factor_secret := none
    failed_login_attempts := 0
    locked_until := none
    last_login := none }

/-- A login request with the correct password for `demoUser`. -/
def demoRightLogin : LoginRequest :=
  { email := "doc@h.com", password := "pw-right", twoFactorToken := none }

/-- A login request with a wrong password for `demoUser`. -/
def demoWrongLogin : LoginRequest :=
  { email := "doc@h.com", password := "pw-wrong", twoFactorToken := none }

/-! ### Helper lemmas -/

lemma isLocked_eq_false_of_none (now : Nat) (u : User)
    (h : u.locked_until = none) : isLocked now u = false := by
  simp [isLocked, h]

lemma mem_loginUserData (u : User) (kv : String × String)
    (h : kv ∈ loginUserData u) :
    kv.1 ≠ "password_hash" ∧ kv.1 ≠ "two_factor_secret" := by
  unfold loginUserData at h
  have hp := List.of_mem_filter h
  simpa [Bool.and_eq_true] using hp

lemma mem_meUserData (u : User) (kv : String × String)
    (h : kv ∈ meUserData u) :
    kv.1 ≠ "password_hash" ∧ kv.1 ≠ "two_factor_secret" := by
  unfold meUserData at h
  have hp := List.of_mem_filter h
  simpa [Bool.and_eq_true] using hp

lemma loginUser_success_data (c : Crypto) (secret : String) (now : Nat)
    (req : LoginRequest) (u : User) (tok : Token)
    (data : List (String × String))
    (h : (loginUser c secret now req u).1 = LoginResult.success tok data) :
    data = loginUserData u := by
  unfold loginUser at h
  split at h
  · simp at h
  · split at h
    · simp at h
    · cases hg : loginTwoFactorGate c req u with
      | some r =>
        rw [hg] at h
        simp only [] at h
        rw [h] at hg
        unfold loginTwoFactorGate at hg
        split at hg
        · cases hx : req.twoFactorToken with
          | none => rw [hx] at hg; simp at hg
          | some code =>
            rw [hx] at hg
            split at hg <;> simp at hg
        · simp at hg
      | none =>
        rw [hg] at h
        simp only [LoginResult.success.injEq] at h
        exact h.2.symm

/-! ### Claim theorems -/

/-- Claim C1: for every account starting with a zero failed-attempt
counter and no lock, 5 consecutive failed login attempts leave it
LOCKED, with the lock expiry set to the time of the fifth attempt plus
30 minutes, and a sixth attempt while the lock is live, even with the
correct password, is answered by the lockout error (423), not the
credentials error (401). -/
theorem five_failed_logins_lock_then_423 (c : Crypto) (secret : String)
    (u : User) (t1 t2 t3 t4 t5 t6 : Nat) (wrong right : LoginRequest)
    (h0 : u.failed_login_attempts = 0) (h1 : u.locked_until = none)
    (hw : c.verifyPassword wrong.password u.password_hash = false)
    (hr : c.verifyPassword right.password u.password_hash = true)
    (h6 : t6 < t5 + 30 * 60 * 1000) :
    (runAttempts c secret u
        [(t1, wrong), (t2, wrong), (t3, wrong), (t4, wrong), (t5, wrong)]).locked_until
      = some (t5 + 30 * 60 * 1000) ∧
    (runAttempts c secret u
        [(t1, wrong), (t2, wrong), (t3, wrong), (t4, wrong), (t5, wrong)]).failed_login_attempts
      = 5 ∧
    (loginUser c secret t6 right
        (runAttempts c secret u
          [(t1, wrong), (t2, wrong), (t3, wrong), (t4, wrong), (t5, wrong)])).1
      = LoginResult.locked (lockMinutesRemaining t6 (t5 + 30 * 60 * 1000)) ∧
    loginStatus (loginUser c secret t6 right
        (runAttempts c secret u
          [(t1, wrong), (t2, wrong), (t3, wrong), (t4, wrong), (t5, wrong)])).1
      = 423 := by
  obtain ⟨uid, uem, uph, urole, uact, utfe, utfs, ufla, ulu, ull⟩ := u
  simp only at h0 h1 hw hr
  subst h0 h1
  simp [runAttempts, loginUser, isLocked, handleFailedLogin, hw, hr,
    lockMinutesRemaining, loginStatus, h6]

/-- Witness for C1 at concrete inputs. -/
theorem five_failed_logins_lock_then_423_witness :
    (runAttempts demoCrypto "sec" demoUser
        [(0, demoWrongLogin), (0, demoWrongLogin), (0, demoWrongLogin),
         (0, demoWrongLogin), (0, demoWrongLogin)]).locked_until
      = some (0 + 30 * 60 * 1000) ∧
    (runAttempts demoCrypto "sec" demoUser
        [(0, demoWrongLogin), (0, demoWrongLogin), (0, demoWrongLogin),
         (0, demoWrongLogin), (0, demoWrongLogin)]).failed_login_attempts
      = 5 ∧
    (loginUser demoCrypto "sec" 1 demoRightLogin
        (runAttempts demoCrypto "sec" demoUser
          [(0, demoWrongLogin), (0, demoWrongLogin), (0, demoWrongLogin),
           (0, demoWrongLogin), (0, demoWrongLogin)])).1
      = LoginResult.locked (lockMinutesRemaining 1 (0 + 30 * 60 * 1000)) ∧
    loginStatus (loginUser demoCrypto "sec" 1 demoRightLogin
        (runAttempts demoCrypto "sec" demoUser
          [(0, demoWrongLogin), (0, demoWrongLogin), (0, demoWrongLogin),
           (0, demoWrongLogin), (0, demoWrongLogin)])).1
      = 423 :=
  five_failed_logins_lock_then_423 demoCrypto "sec" demoUser 0 0 0 0 0 1
    demoWrongLogin demoRightLogin (by decide) (by decide) (by decide)
    (by decide) (by decide)

/-- Claim C2 counterexample: an enrolled account submitting the correct
password and a wrong TOTP code is rejected with the invalid-code 401,
yet the row is left untouched: the failed-attempt counter stays 0, so
the invalid-code branch does not invoke `handleFailedLogin`. -/
theorem invalid_totp_counter_not_incremented_cex :
    (loginUser demoCrypto "sec" 0
        { email := "doc@h.com", password := "pw-right", twoFactorToken := some "000000" }
        { demoUser with two_factor_enabled := true
                        two_factor_secret := some "secret-of:123456" }).1
      = LoginResult.invalidTwoFactor ∧
    (loginUser demoCrypto "sec" 0
        { email := "doc@h.com", password := "pw-right", twoFactorToken := some "000000" }
        { demoUser with two_factor_enabled := true
                        two_factor_secret := some "secret-of:123456" }).2.failed_login_attempts
      = 0 ∧
    (loginUser demoCrypto "sec" 0
        { email := "doc@h.com", password := "pw-right", twoFactorToken := some "000000" }
        { demoUser with two_factor_enabled := true
                        two_factor_secret := some "secret-of:123456" }).2
      = { demoUser with two_factor_enabled := true
                        two_factor_secret := some "secret-of:123456" } := by
  decide

/-- Claim C2 amended: during login, when the account has two-factor
enrolled and the submitted TOTP code is invalid, the request is
rejected with 401, and the failed-attempt counter is NOT incremented:
the row is returned exactly as it was read. -/
theorem invalid_totp_rejected_without_increment (c : Crypto)
    (secret : String) (now : Nat) (req : LoginRequest) (u : User)
    (code : String)
    (hl : isLocked now u = false)
    (hp : c.verifyPassword req.password u.password_hash = true)
    (he : u.two_factor_enabled = true)
    (hc : req.twoFactorToken = some code)
    (hv : c.verifyTwoFactorToken code u.two_factor_secret = false) :
    (loginUser c secret now req u).1 = LoginResult.invalidTwoFactor ∧
    loginStatus (loginUser c secret now req u).1 = 401 ∧
    (loginUser c secret now req u).2 = u ∧
    (loginUser c secret now req u).2.failed_login_attempts
      = u.failed_login_attempts := by
  simp [loginUser, loginTwoFactorGate, hl, hp, he, hc, hv, loginStatus]

/-- Witness for the amended C2 at concrete inputs. -/
theorem invalid_totp_rejected_without_increment_witness :
    (loginUser demoCrypto "sec" 0
        { email := "doc@h.com", password := "pw-right", twoFactorToken := some "000000" }
        { demoUser with two_factor_enabled := true
                        two_factor_secret := some "secret-of:123456" }).1
      = LoginResult.invalidTwoFactor ∧
    loginStatus (loginUser demoCrypto "sec" 0
        { email := "doc@h.com", password := "pw-right", twoFactorToken := some "000000" }
        { demoUser with two_factor_enabled := true
                        two_factor_secret := some "secret-of:123456" }).1
      = 401 ∧
    (loginUser demoCrypto "sec" 0
        { email := "doc@h.com", password := "pw-right", twoFactorToken := some "000000" }
        { demoUser with two_factor_enabled := true
                        two_factor_secret := some "secret-of:123456" }).2
      = { demoUser with two_factor_enabled := true
                        two_factor_secret := some "secret-of:123456" } ∧
    (loginUser demoCrypto "sec" 0
        { email := "doc@h.com", password := "pw-right", twoFactorToken := some "000000" }
        { demoUser with two_factor_enabled := true
                        two_factor_secret := some "secret-of:123456" }).2.failed_login_attempts
      = ({ demoUser with two_factor_enabled := true
                         two_factor_secret := some "secret-of:123456" } : User).failed_login_attempts :=
  invalid_totp_rejected_without_increment demoCrypto "sec" 0
    { email := "doc@h.com", password := "pw-right", twoFactorToken := some "000000" }
    { demoUser with two_factor_enabled := true
                    two_factor_secret := some "secret-of:123456" }
    "000000" (by decide) (by decide) (by decide) (by decide) (by decide)

/-- Claim C3 counterexample: an account with counter 5 and an expired
lock (expiry 1000, accessed at 1000) is not returned to the state of a
fresh account by the next access: a failed attempt at that point takes
the counter to 6 and re-locks for 30 more minutes, so the lazy
LOCKED to OPEN transition clears neither the counter nor the expiry. -/
theorem expired_lock_not_cleared_on_access_cex :
    (loginUser demoCrypto "sec" 1000 demoWrongLogin
        { demoUser with failed_login_attempts := 5, locked_until := some 1000 }).2.failed_login_attempts
      = 6 ∧
    (loginUser demoCrypto "sec" 1000 demoWrongLogin
        { demoUser with failed_login_attempts := 5, locked_until := some 1000 }).2.locked_until
      = some (1000 + 30 * 60 * 1000) := by
  decide

/-- Claim C3 amended: once now is at or past the lock expiry, the
lockout check passes (the account behaves as OPEN for gating), but the
counter and the expiry are cleared only by `resetFailedAttempts` on
the next successful login; a failed attempt after expiry instead
increments the counter, which is already at the threshold, and
immediately re-locks the account. -/
theorem expired_lock_cleared_only_on_success (c : Crypto)
    (secret : String) (now lockExpiry : Nat) (right wrong : LoginRequest)
    (u : User)
    (hT : u.locked_until = some lockExpiry)
    (hTn : lockExpiry ≤ now)
    (htfa : u.two_factor_enabled = false)
    (hr : c.verifyPassword right.password u.password_hash = true)
    (hw : c.verifyPassword wrong.password u.password_hash = false)
    (hge : 4 ≤ u.failed_login_attempts) :
    isLocked now u = false ∧
    (loginUser c secret now right u).1
      = LoginResult.success (generateToken secret now u.id u.role)
          (loginUserData u) ∧
    (loginUser c secret now right u).2.failed_login_attempts = 0 ∧
    (loginUser c secret now right u).2.locked_until = none ∧
    (loginUser c secret now wrong u).2.failed_login_attempts
      = u.failed_login_attempts + 1 ∧
    (loginUser c secret now wrong u).2.locked_until
      = some (now + 30 * 60 * 1000) := by
  have hnl : isLocked now u = false := by
    simp [isLocked, hT]
    omega
  have h5 : 5 ≤ u.failed_login_attempts + 1 := by omega
  refine ⟨hnl, ?_, ?_, ?_, ?_, ?_⟩ <;>
    simp [loginUser, loginTwoFactorGate, hnl, hr, hw, htfa,
      resetFailedAttempts, handleFailedLogin, h5]

/-- Witness for the amended C3 at concrete inputs. -/
theorem expired_lock_cleared_only_on_success_witness :
    isLocked 1000
      ({ demoUser with failed_login_attempts := 5, locked_until := some 1000 } : User)
      = false ∧
    (loginUser demoCrypto "sec" 1000 demoRightLogin
        { demoUser with failed_login_attempts := 5, locked_until := some 1000 }).1
      = LoginResult.success (generateToken "sec" 1000 "u1" "doctor")
          (loginUserData
            { demoUser with failed_login_attempts := 5, locked_until := some 1000 }) ∧
    (loginUser demoCrypto "sec" 1000 demoRightLogin
        { demoUser with failed_login_attempts := 5, locked_until := some 1000 }).2.failed_login_attempts
      = 0 ∧
    (loginUser demoCrypto "sec" 1000 demoRightLogin
        { demoUser with failed_login_attempts := 5, locked_until := some 1000 }).2.locked_until
      = none ∧
    (loginUser demoCrypto "sec" 1000 demoWrongLogin
        { demoUser with failed_login_attempts := 5, locked_until := some 1000 }).2.failed_login_attempts
      = ({ demoUser with failed_login_attempts := 5, locked_until := some 1000 } : User).failed_login_attempts + 1 ∧
    (loginUser demoCrypto "sec" 1000 demoWrongLogin
        { demoUser with failed_login_attempts := 5, locked_until := some 1000 }).2.locked_until
      = some (1000 + 30 * 60 * 1000) :=
  expired_lock_cleared_only_on_success demoCrypto "sec" 1000 1000
    demoRightLogin demoWrongLogin
    { demoUser with failed_login_attempts := 5, locked_until := some 1000 }
    (by decide) (by decide) (by decide) (by decide) (by decide) (by decide)

/-- Claim C4: for a single source IP, after 10 login requests within
one 15-minute window the counter reads 10, so the 11th request is
answered 429 whatever the credentials, the database contents and the
crypto outcomes are; moreover the whole pipeline output on that
request is identical for any two database states, because the
rate-limit middleware answers before any Account row is read. -/
theorem eleventh_login_rate_limited (c : Crypto) (secret : String)
    (now : Nat) (db : List User) (req : LoginRequest) :
    counterAfterRequests 10 = some 10 ∧
    (loginRequestPipeline c secret now (Except.ok (counterAfterRequests 10))
        db req).1 = LoginResult.rateLimited ∧
    loginStatus (loginRequestPipeline c secret now
        (Except.ok (counterAfterRequests 10)) db req).1 = 429 ∧
    (∀ db2 : List User,
      loginRequestPipeline c secret now (Except.ok (counterAfterRequests 10)) db req
        = loginRequestPipeline c secret now (Except.ok (counterAfterRequests 10)) db2 req) :=
  ⟨rfl, rfl, rfl, fun _ => rfl⟩

/-- Claim C5: when the Redis read inside `authRateLimit` throws, the
middleware fails open: the decision is to let the request through, and
the login pipeline behaves exactly as the handler alone would. -/
theorem rate_limiter_fails_open (c : Crypto) (secret : String)
    (now : Nat) (db : List User) (req : LoginRequest) :
    (authRateLimit (Except.error ())).1 = true ∧
    (loginRequestPipeline c secret now (Except.error ()) db req).1
      = (loginHandler c secret now db req).1 ∧
    (loginRequestPipeline c secret now (Except.error ()) db req).2.2
      = (loginHandler c secret now db req).2 :=
  ⟨rfl, rfl, rfl⟩

/-- Claim C6: after `logout` revokes a properly signed token, every
later `authenticateToken` call on that token is answered 401, with no
grace period: while the denylist entry is live the token is rejected as
revoked, and as soon as the entry has expired the token itself has
passed its expiry. When the token still has remaining lifetime at
revocation, the denylist entry is created with a time-to-live equal to
exactly that remaining lifetime in seconds. -/
theorem revoked_token_never_validates (secret : String) (t : Token)
    (bl : List BlacklistEntry) (db : List User) (revokeMs t2 : Nat)
    (hsig : t.sig = mkSig secret t.userId t.role t.exp)
    (hafter : revokeMs ≤ t2) :
    authStatus (authenticateToken secret t2
        (logout revokeMs (RawToken.wellFormed t) bl) db
        (some (RawToken.wellFormed t))) = 401 ∧
    (revokeMs / 1000 < t.exp →
      logout revokeMs (RawToken.wellFormed t) bl
        = { token := RawToken.wellFormed t
            setAtMs := revokeMs
            ttlSec := t.exp - revokeMs / 1000 } :: bl) := by
  constructor
  · by_cases hbl : isBlacklisted t2 (logout revokeMs (RawToken.wellFormed t) bl)
        (RawToken.wellFormed t) = true
    · simp [authenticateToken, hbl, authStatus]
    · have hbl2 : isBlacklisted t2 (logout revokeMs (RawToken.wellFormed t) bl)
          (RawToken.wellFormed t) = false := by
        cases hx : isBlacklisted t2 (logout revokeMs (RawToken.wellFormed t) bl)
            (RawToken.wellFormed t)
        · rfl
        · exact absurd hx hbl
      have hexp : t.exp ≤ t2 / 1000 := by
        by_cases hrv : revokeMs / 1000 < t.exp
        · have hlo : logout revokeMs (RawToken.wellFormed t) bl
              = { token := RawToken.wellFormed t
                  setAtMs := revokeMs
                  ttlSec := t.exp - revokeMs / 1000 } :: bl := by
            simp [logout, hrv]
          rw [hlo] at hbl2
          simp [isBlacklisted, BlacklistEntry.live] at hbl2
          have hq : revokeMs / 1000 * 1000 ≤ revokeMs := Nat.div_mul_le_self _ _
          have h1000 : t.exp ≤ t2 / 1000 ↔ t.exp * 1000 ≤ t2 :=
            Nat.le_div_iff_mul_le (by omega)
          rw [h1000]
          omega
        · have hd : revokeMs / 1000 ≤ t2 / 1000 := Nat.div_le_div_right hafter
          omega
      simp [authenticateToken, hbl2, jwtVerify, hsig, hexp, authStatus]
  · intro hrv
    simp [logout, hrv]

/-- Witness for C6 at concrete inputs: a token expiring at second 100,
revoked at millisecond 50000 and presented again at the same instant. -/
theorem revoked_token_never_validates_witness :
    authStatus (authenticateToken "sec" 50000
        (logout 50000
          (RawToken.wellFormed
            { userId := "u1", role := "doctor", exp := 100
              sig := mkSig "sec" "u1" "doctor" 100 }) [])
        []
        (some (RawToken.wellFormed
          { userId := "u1", role := "doctor", exp := 100
            sig := mkSig "sec" "u1" "doctor" 100 }))) = 401 ∧
    (50000 / 1000 <
        ({ userId := "u1", role := "doctor", exp := 100
           sig := mkSig "sec" "u1" "doctor" 100 } : Token).exp →
      logout 50000
          (RawToken.wellFormed
            { userId := "u1", role := "doctor", exp := 100
              sig := mkSig "sec" "u1" "doctor" 100 }) []
        = [{ token := RawToken.wellFormed
               { userId := "u1", role := "doctor", exp := 100
                 sig := mkSig "sec" "u1" "doctor" 100 }
             setAtMs := 50000
             ttlSec := 100 - 50000 / 1000 }]) :=
  revoked_token_never_validates "sec"
    { userId := "u1", role := "doctor", exp := 100
      sig := mkSig "sec" "u1" "doctor" 100 }
    [] [] 50000 50000 (by decide) (by decide)

/-- Claim C7 counterexample: an expired token and a revoked token both
get status 401, but the two responses are not the same: the message
bodies are `Token has expired` and `Token has been invalidated`, so the
response does distinguish expiry from revocation for the caller. -/
theorem rejection_reasons_distinguished_cex :
    authMessage (authenticateToken "sec" 20000 [] []
        (some (RawToken.wellFormed
          { userId := "u1", role := "doctor", exp := 10
            sig := mkSig "sec" "u1" "doctor" 10 })))
      = "Token has expired" ∧
    authMessage (authenticateToken "sec" 500
        [{ token := RawToken.wellFormed
             { userId := "u1", role := "doctor", exp := 10
               sig := mkSig "sec" "u1" "doctor" 10 }
           setAtMs := 0
           ttlSec := 10 }] []
        (some (RawToken.wellFormed
          { userId := "u1", role := "doctor", exp := 10
            sig := mkSig "sec" "u1" "doctor" 10 })))
      = "Token has been invalidated" ∧
    authMessage (authenticateToken "sec" 20000 [] []
        (some (RawToken.wellFormed
          { userId := "u1", role := "doctor", exp := 10
            sig := mkSig "sec" "u1" "doctor" 10 })))
      ≠ authMessage (authenticateToken "sec" 500
        [{ token := RawToken.wellFormed
             { userId := "u1", role := "doctor", exp := 10
               sig := mkSig "sec" "u1" "doctor" 10 }
           setAtMs := 0
           ttlSec := 10 }] []
        (some (RawToken.wellFormed
          { userId := "u1", role := "doctor", exp := 10
            sig := mkSig "sec" "u1" "doctor" 10 }))) := by
  decide

/-- Claim C7 amended: every token-rejection outcome of
`authenticateToken` (missing token, revoked, expired, invalid signature
or malformed payload) carries HTTP status 401, though the message body
differs per reason. -/
theorem token_rejection_always_401 (secret : String) (nowMs : Nat)
    (bl : List BlacklistEntry) (db : List User) (header : Option RawToken)
    (h : isTokenRejection (authenticateToken secret nowMs bl db header) = true) :
    authStatus (authenticateToken secret nowMs bl db header) = 401 := by
  generalize hx : authenticateToken secret nowMs bl db header = r at h ⊢
  cases r <;> simp_all [isTokenRejection, authStatus]

/-- Witness for the amended C7: a request with no Authorization header
is a token rejection and gets status 401. -/
theorem token_rejection_always_401_witness :
    isTokenRejection (authenticateToken "sec" 0 [] [] none) = true ∧
    authStatus (authenticateToken "sec" 0 [] [] none) = 401 :=
  ⟨rfl, token_rejection_always_401 "sec" 0 [] [] none rfl⟩

/-- Claim C8: a signed, unexpired, unrevoked token bound to an active
account that is currently locked is answered by the lockout rejection
(423) and never authenticates: the lockout state is re-evaluated inside
`authenticateToken` on every protected request, so a token issued
before the lock was imposed is rejected for as long as the lock is
live. -/
theorem valid_token_rejected_while_locked (secret : String) (nowMs : Nat)
    (bl : List BlacklistEntry) (db : List User) (t : Token) (u : User)
    (lockExpiry : Nat)
    (hsig : t.sig = mkSig secret t.userId t.role t.exp)
    (hexp : nowMs / 1000 < t.exp)
    (hbl : isBlacklisted nowMs bl (RawToken.wellFormed t) = false)
    (hfind : findUserById db t.userId = some u)
    (hact : u.is_active = true)
    (hlock : u.locked_until = some lockExpiry)
    (hnow : nowMs < lockExpiry) :
    authenticateToken secret nowMs bl db (some (RawToken.wellFormed t))
      = AuthResult.lockedAccount ∧
    authStatus (authenticateToken secret nowMs bl db
        (some (RawToken.wellFormed t))) = 423 ∧
    (∀ (v : User) (rt : RawToken),
      authenticateToken secret nowMs bl db (some (RawToken.wellFormed t))
        ≠ AuthResult.ok v rt) := by
  have hne : ¬ t.exp ≤ nowMs / 1000 := by omega
  have hred : authenticateToken secret nowMs bl db
      (some (RawToken.wellFormed t)) = AuthResult.lockedAccount := by
    simp [authenticateToken, hbl, jwtVerify, hsig, hne, hfind, hact,
      isLocked, hlock, hnow]
  refine ⟨hred, ?_, ?_⟩
  · rw [hred]
    rfl
  · intro v rt
    rw [hred]
    simp

/-- Witness for C8 at concrete inputs: a token expiring at second 100
presented at millisecond 0 for an account locked until millisecond
60000. -/
theorem valid_token_rejected_while_locked_witness :
    authenticateToken "sec" 0 []
        [{ demoUser with locked_until := some 60000 }]
        (some (RawToken.wellFormed
          { userId := "u1", role := "doctor", exp := 100
            sig := mkSig "sec" "u1" "doctor" 100 }))
      = AuthResult.lockedAccount ∧
    authStatus (authenticateToken "sec" 0 []
        [{ demoUser with locked_until := some 60000 }]
        (some (RawToken.wellFormed
          { userId := "u1", role := "doctor", exp := 100
            sig := mkSig "sec" "u1" "doctor" 100 }))) = 423 ∧
    (∀ (v : User) (rt : RawToken),
      authenticateToken "sec" 0 []
          [{ demoUser with locked_until := some 60000 }]
          (some (RawToken.wellFormed
            { userId := "u1", role := "doctor", exp := 100
              sig := mkSig "sec" "u1" "doctor" 100 }))
        ≠ AuthResult.ok v rt) :=
  valid_token_rejected_while_locked "sec" 0 []
    [{ demoUser with locked_until := some 60000 }]
    { userId := "u1", role := "doctor", exp := 100
      sig := mkSig "sec" "u1" "doctor" 100 }
    { demoUser with locked_until := some 60000 } 60000
    (by decide) (by decide) (by decide) (by decide) (by decide)
    (by decide) (by decide)

/-- Claim C9: whenever the login pipeline answers with full success,
the serialized user object contains neither the password hash nor the
two-factor secret key, and the `GET /me` serialization excludes both
columns for every user. -/
theorem login_response_omits_secrets (c : Crypto) (secret : String)
    (now : Nat) (db : List User) (req : LoginRequest) (tok : Token)
    (data : List (String × String)) (u2 : Option User)
    (h : loginHandler c secret now db req = (LoginResult.success tok data, u2)) :
    (∀ kv ∈ data, kv.1 ≠ "password_hash" ∧ kv.1 ≠ "two_factor_secret") ∧
    (∀ (u : User), ∀ kv ∈ meUserData u,
      kv.1 ≠ "password_hash" ∧ kv.1 ≠ "two_factor_secret") := by
  constructor
  · unfold loginHandler at h
    cases hf : findUserByEmail db req.email with
    | none => rw [hf] at h; simp at h
    | some u =>
      rw [hf] at h
      have h1 : (loginUser c secret now req u).1 = LoginResult.success tok data := by
        have := congrArg Prod.fst h
        simpa using this
      have hdata := loginUser_success_data c secret now req u tok data h1
      intro kv hkv
      rw [hdata] at hkv
      exact mem_loginUserData u kv hkv
  · intro u kv hkv
    exact mem_meUserData u kv hkv

/-- Witness for C9: a concrete successful login of `demoUser`. -/
theorem login_response_omits_secrets_witness :
    loginHandler demoCrypto "sec" 0 [demoUser] demoRightLogin
      = (LoginResult.success (generateToken "sec" 0 "u1" "doctor")
          (loginUserData demoUser), some (resetFailedAttempts 0 demoUser)) ∧
    ((∀ kv ∈ loginUserData demoUser,
        kv.1 ≠ "password_hash" ∧ kv.1 ≠ "two_factor_secret") ∧
     (∀ (u : User), ∀ kv ∈ meUserData u,
        kv.1 ≠ "password_hash" ∧ kv.1 ≠ "two_factor_secret")) := by
  have h : loginHandler demoCrypto "sec" 0 [demoUser] demoRightLogin
      = (LoginResult.success (generateToken "sec" 0 "u1" "doctor")
          (loginUserData demoUser), some (resetFailedAttempts 0 demoUser)) := by
    decide
  exact ⟨h, login_response_omits_secrets demoCrypto "sec" 0 [demoUser]
    demoRightLogin (generateToken "sec" 0 "u1" "doctor")
    (loginUserData demoUser) (some (resetFailedAttempts 0 demoUser)) h⟩

/-- Claim C10: after `POST /enable-2fa` has stored a two-factor secret
but before `POST /verify-2fa-setup` has set the enrolled flag, a login
with correct email and password alone still completes fully and
returns a token: the handler gates the second factor solely on
`two_factor_enabled`, not on the presence of a stored secret. -/
theorem pending_enrollment_login_bypasses_second_factor (c : Crypto)
    (secret : String) (now : Nat) (s : String) (req : LoginRequest)
    (u : User)
    (hflag : u.two_factor_enabled = false)
    (hl : isLocked now u = false)
    (hp : c.verifyPassword req.password u.password_hash = true) :
    (enableTwoFA s u).two_factor_secret = some s ∧
    (enableTwoFA s u).two_factor_enabled = false ∧
    (loginUser c secret now req (enableTwoFA s u)).1
      = LoginResult.success (generateToken secret now u.id u.role)
          (loginUserData (enableTwoFA s u)) ∧
    loginStatus (loginUser c secret now req (enableTwoFA s u)).1 = 200 := by
  have hl2 : isLocked now (enableTwoFA s u) = false := hl
  have hp2 : c.verifyPassword req.password (enableTwoFA s u).password_hash
      = true := hp
  have hflag2 : (enableTwoFA s u).two_factor_enabled = false := hflag
  have hgen : generateToken secret now (enableTwoFA s u).id
      (enableTwoFA s u).role = generateToken secret now u.id u.role := rfl
  refine ⟨rfl, hflag2, ?_, ?_⟩ <;>
    simp [loginUser, loginTwoFactorGate, hl2, hp2, hflag2, hgen, loginStatus]

/-- Witness for C10: `demoUser` with a freshly stored secret logs in
with password alone. -/
theorem pending_enrollment_login_bypasses_second_factor_witness :
    (enableTwoFA "secret-of:123456" demoUser).two_factor_secret
      = some "secret-of:123456" ∧
    (enableTwoFA "secret-of:123456" demoUser).two_factor_enabled = false ∧
    (loginUser demoCrypto "sec" 0 demoRightLogin
        (enableTwoFA "secret-of:123456" demoUser)).1
      = LoginResult.success (generateToken "sec" 0 "u1" "doctor")
          (loginUserData (enableTwoFA "secret-of:123456" demoUser)) ∧
    loginStatus (loginUser demoCrypto "sec" 0 demoRightLogin
        (enableTwoFA "secret-of:123456" demoUser)).1 = 200 :=
  pending_enrollment_login_bypasses_second_factor demoCrypto "sec" 0
    "secret-of:123456" demoRightLogin demoUser
    (by decide) (by decide) (by decide)

end HMS
